import Mathlib

/-
  Verification development for the ai-voice-bridge repository.

  The definitions below are a shallow embedding of the Python sources:
  - `src/ai_voice_bridge/bridge.py`        (VoiceBridge)
  - `src/ai_voice_bridge/gemini_client.py` (GeminiClient)
  - `src/ai_voice_bridge/strategies/on_demand.py` (OnDemandStrategy)
  - `src/ai_voice_bridge/strategies/always_on.py` (AlwaysOnStrategy)
  - `src/ai_voice_bridge/config.py`        (Settings defaults)

  Python dicts coming from the Gemini wire format are embedded as
  structures with `Option` fields (a `none` field models an absent or
  falsy dict entry).  Python bytes are embedded as `List Nat`.
  Exceptions are embedded as an explicit `Bool` ("raised") component of
  the result.  Asynchronous loops are embedded as pure functions from the
  list of inputs the loop would consume to the list of actions/events the
  loop performs, in order.
-/

namespace AiVoiceBridge

/-- Python `bytes` values (one `Nat` per byte). -/
abbrev Bytes := List Nat

/-- The `inlineData` sub-dict of a Gemini part:
`{"mimeType": ..., "data": ...}`.  `data = none` models a dict without a
`"data"` key (so that `inline["data"]` raises `KeyError`). -/
structure InlineData where
  mimeType : String
  data : Option Bytes
deriving Repr, DecidableEq

/-- One element of `serverContent.modelTurn.parts`.  A `none` field models
an absent (or falsy) dict key. -/
structure Part where
  text : Option String
  inlineData : Option InlineData
deriving Repr, DecidableEq

/-- The `serverContent` sub-dict of an upstream message.
`modelTurn = none` models an absent `modelTurn` key (so that
`.get("modelTurn", {}).get("parts", [])` yields `[]`). -/
structure ServerContent where
  modelTurn : Option (List Part)
  turnComplete : Bool
deriving Repr, DecidableEq

/-- An upstream message as the dict produced by
`GeminiClient._convert_response`.  `serverContent = none` models a dict
without the `serverContent` key. -/
structure UpstreamMsg where
  serverContent : Option ServerContent
deriving Repr, DecidableEq

/-- `msg.get("serverContent", {}).get("modelTurn", {}).get("parts", [])`. -/
def msgParts (msg : UpstreamMsg) : List Part :=
  match msg.serverContent with
  | none => []
  | some sc => sc.modelTurn.getD []

/-- Whether `sub` occurs as a contiguous run at the head of `l`. -/
def listStartsWith : List Char → List Char → Bool
  | _, [] => true
  | [], _ :: _ => false
  | c :: l, d :: sub => c == d && listStartsWith l sub

/-- Whether `sub` occurs contiguously anywhere in `l`. -/
def listContainsSub (l sub : List Char) : Bool :=
  match l with
  | [] => listStartsWith [] sub
  | _ :: rest => listStartsWith l sub || listContainsSub rest sub

/-- The Python substring test `sub in s`. -/
def pyInStr (sub s : String) : Bool :=
  listContainsSub s.toList sub.toList

/-- Loop body of `VoiceBridge._extract_audio`: the first part whose
(truthy) `inlineData` has an audio mime type wins; a missing `"data"` key
on that part raises `KeyError`, which the surrounding `except` turns into
`None`. -/
def extractAudioLoop : List Part → Option Bytes
  | [] => none
  | p :: rest =>
    match p.inlineData with
    | none => extractAudioLoop rest
    | some inline =>
      if pyInStr ("audio") inline.mimeType then inline.data
      else extractAudioLoop rest

/-- `VoiceBridge._extract_audio`. -/
def extract_audio (msg : UpstreamMsg) : Option Bytes :=
  extractAudioLoop (msgParts msg)

/-- Loop body of `VoiceBridge._extract_text` (identical to
`OnDemandStrategy._extract_text`): the first part with a truthy (non-empty)
`text` field wins. -/
def extractTextLoop : List Part → Option String
  | [] => none
  | p :: rest =>
    match p.text with
    | none => extractTextLoop rest
    | some t => if t = "" then extractTextLoop rest else some t

/-- `VoiceBridge._extract_text` and `OnDemandStrategy._extract_text`. -/
def extract_text (msg : UpstreamMsg) : Option String :=
  extractTextLoop (msgParts msg)

/-- `VoiceBridge._is_turn_complete`. -/
def is_turn_complete (msg : UpstreamMsg) : Bool :=
  match msg.serverContent with
  | none => false
  | some sc => sc.turnComplete

/-- The outbound event vocabulary broadcast to listeners. -/
inductive Event where
  | speaking (value : Bool)
  | audio (data : Bytes)
  | subtitle (text : String)
  | turnCompleteEv
  | ready
  | errorEv (message : String)
deriving Repr, DecidableEq

/-- The events `VoiceBridge._process_responses` emits for one upstream
message: audio (guarded by Python truthiness of the bytes), then text,
then turn completion. -/
def processResponseMsg (msg : UpstreamMsg) : List Event :=
  (match extract_audio msg with
   | some a => if a = [] then [] else [.speaking true, .audio a]
   | none => []) ++
  (match extract_text msg with
   | some t => if t = "" then [] else [.subtitle t]
   | none => []) ++
  (if is_turn_complete msg then [.speaking false, .turnCompleteEv] else [])

/-- The full event stream `VoiceBridge._process_responses` emits for a
list of upstream messages. -/
def processResponses : List UpstreamMsg → List Event
  | [] => []
  | msg :: rest => processResponseMsg msg ++ processResponses rest

/-- A concrete upstream message carrying one audio part, one text part and
the turn-complete flag. -/
def sampleMsg : UpstreamMsg :=
  ⟨some ⟨some [⟨none, some ⟨("audio/pcm"), some [1, 2]⟩⟩, ⟨some ("hi"), none⟩], true⟩⟩

/-! ## OnDemandStrategy state machine (`strategies/on_demand.py`) -/

/-- `OnDemandStrategy.on_start_talking`, as a function of the current
`_is_active` flag and of whether `GeminiClient.connect` succeeds.  The
result is the new `_is_active` flag paired with whether the call raised
to its caller. -/
def on_start_talking (isActive connectOk : Bool) : Bool × Bool :=
  if isActive then (isActive, false)
  else if connectOk then (true, false)
  else (false, true)

/-- `OnDemandStrategy.on_stop_talking` (note `GeminiClient.close` never
raises: it swallows exceptions internally).  Result as in
`on_start_talking`. -/
def on_stop_talking (isActive : Bool) : Bool × Bool :=
  if isActive then (false, false) else (isActive, false)

/-- One inbound call on the OnDemand strategy; a start-talking gesture is
tagged with whether the underlying `connect` would succeed. -/
inductive ODCall where
  | startTalking (connectOk : Bool)
  | stopTalking
deriving Repr, DecidableEq

/-- Dispatch one call to the strategy. -/
def stepCall (b : Bool) : ODCall → Bool × Bool
  | .startTalking ok => on_start_talking b ok
  | .stopTalking => on_stop_talking b

/-- Run a sequence of calls from `_is_active = b`, returning the final
flag together with the per-call record `(call, succeeded)` where
`succeeded` means the call returned without raising. -/
def runCalls (b : Bool) : List ODCall → Bool × List (ODCall × Bool)
  | [] => (b, [])
  | c :: rest =>
    let s := stepCall b c
    let r := runCalls s.1 rest
    (r.1, (c, !s.2) :: r.2)

/-- Whether a call is a start-talking gesture. -/
def isStartCall : ODCall → Bool
  | .startTalking _ => true
  | .stopTalking => false

/-- Spec-side reading of the claim: the strategy is Active iff the most
recent call that succeeded was `on_start_talking` (with no
`on_stop_talking` after it); with no successful call yet, the initial
flag `b` stands.  Walks the record remembering whether the latest
successful call so far was a start; `lastSucceededWasStart_eq_getLastD`
below restates it as a last-element lookup over the successful calls. -/
def lastSucceededWasStart (b : Bool) : List (ODCall × Bool) → Bool
  | [] => b
  | (c, true) :: tr => lastSucceededWasStart (isStartCall c) tr
  | (_, false) :: tr => lastSucceededWasStart b tr

/-! ## OnDemand conversation history (`strategies/on_demand.py`, `config.py`) -/

/-- `Settings.max_history_messages` default from `config.py`. -/
def max_history_messages : Nat := 20

/-- `Settings.system_prompt` default from `config.py`. -/
def system_prompt : String :=
  "You are a helpful AI assistant in a VR environment."

/-- One `{"role": ..., "content": ...}` entry of `OnDemandStrategy._history`. -/
structure HistoryEntry where
  role : String
  content : String
deriving Repr, DecidableEq

/-- The Python truthiness test `text.strip()`: the stripped string is
non-empty exactly when some character is not whitespace. -/
def strippedTruthy (text : String) : Bool :=
  text.toList.any (fun c => !c.isWhitespace)

/-- `OnDemandStrategy.add_to_history`. -/
def add_to_history (h : List HistoryEntry) (role text : String) : List HistoryEntry :=
  if strippedTruthy text then h ++ [⟨role, text⟩] else h

/-- The history update `OnDemandStrategy.receive_responses` performs for
one upstream message (`_extract_text` is walrus-guarded, and only returns
non-empty text). -/
def receiveStep (h : List HistoryEntry) (msg : UpstreamMsg) : List HistoryEntry :=
  match extract_text msg with
  | some t => h ++ [⟨("assistant"), t⟩]
  | none => h

/-- The Python slice `l[-n:]` (for `n = 0` it is `l[0:]`, the whole list). -/
def pyLastSlice (n : Nat) (l : List HistoryEntry) : List HistoryEntry :=
  if n = 0 then l else l.drop (l.length - n)

/-- The `recent = self._history[-settings.max_history_messages:]` slice of
`OnDemandStrategy._build_context_prompt`. -/
def recentHistory (h : List HistoryEntry) : List HistoryEntry :=
  pyLastSlice max_history_messages h

/-- One `"<Role>: <content>\n"` line of the rendered transcript. -/
def renderEntry (e : HistoryEntry) : String :=
  (if e.role = ("user") then ("User") else ("Assistant")) ++ (": ") ++ e.content ++ ("\n")

/-- `OnDemandStrategy._build_context_prompt`. -/
def build_context_prompt (h : List HistoryEntry) : String :=
  if h = [] then system_prompt
  else
    system_prompt ++ ("\n") ++
      (("\n\n--- Previous Conversation ---\n") ++
        String.join ((recentHistory h).map renderEntry) ++
        ("--- End History ---\n\n")) ++
      ("Continue the conversation naturally.")

/-! ## GeminiClient (`gemini_client.py`) -/

/-- The connection-relevant state of `GeminiClient`: the `_is_connected`
flag and whether `_session` is not `None`. -/
structure ClientState where
  isConnectedFlag : Bool
  sessionExists : Bool
deriving Repr, DecidableEq

/-- The `GeminiClient.is_connected` property. -/
def is_connected (s : ClientState) : Bool :=
  s.isConnectedFlag && s.sessionExists

/-- `GeminiClient.send_audio`, as a function of the client state and of
whether the underlying `send_realtime_input` fails.  Returns the new
state and whether the call raised to its caller. -/
def send_audio (s : ClientState) (sendFails : Bool) : ClientState × Bool :=
  if !(is_connected s) || !s.sessionExists then (s, false)
  else if sendFails then ({ s with isConnectedFlag := false }, false)
  else (s, false)

/-- One step of the async iteration inside
`GeminiClient.receive_messages`: either a frame that
`_convert_response` decodes to `msg`, a frame whose decoding raises, or
an abnormal error raised by the underlying stream itself. -/
inductive Frame where
  | ok (msg : UpstreamMsg)
  | badDecode
  | streamError
deriving Repr, DecidableEq

/-- The `try`-wrapped loop of `GeminiClient.receive_messages`: yields
decoded messages; any exception (decode failure or stream error) is
caught, ends the generator, and is not re-raised.  Result: the yielded
messages and whether the generator raised to its consumer. -/
def receiveLoop : List Frame → List UpstreamMsg × Bool
  | [] => ([], false)
  | .ok m :: rest =>
    let r := receiveLoop rest
    (m :: r.1, r.2)
  | .badDecode :: _ => ([], false)
  | .streamError :: _ => ([], false)

/-- `GeminiClient.receive_messages` (returns immediately when `_session`
is `None`). -/
def receive_messages (sessionExists : Bool) (frames : List Frame) :
    List UpstreamMsg × Bool :=
  if sessionExists then receiveLoop frames else ([], false)

/-- Whether a frame decodes successfully. -/
def isOkFrame : Frame → Bool
  | .ok _ => true
  | _ => false

/-- The message of a successfully decoded frame. -/
def frameDecoded : Frame → Option UpstreamMsg
  | .ok m => some m
  | _ => none

/-- Modelled from the spec: the claimed behaviour in which a decoding
failure skips only that frame and the sequence continues with later
frames (an abnormal stream error still ends it). -/
def receiveClaimedLoop : List Frame → List UpstreamMsg
  | [] => []
  | .ok m :: rest => m :: receiveClaimedLoop rest
  | .badDecode :: rest => receiveClaimedLoop rest
  | .streamError :: _ => []

/-! ## Listener fan-out (`bridge.py`, `_broadcast_text` / `_broadcast_bytes`) -/

/-- `VoiceBridge._broadcast_text`: listeners are identified by `Nat` ids,
`sendFails` says which listeners' `send_text` would fail.  The result is
`(listeners actually delivered to, connection set afterwards, raised)`.
`asyncio.gather(..., return_exceptions=True)` delivers to every listener
whose send does not fail, leaves `_connections` untouched, and swallows
the per-listener exceptions. -/
def broadcast_text (conns : List Nat) (sendFails : Nat → Bool) :
    List Nat × List Nat × Bool :=
  if conns = [] then ([], conns, false)
  else (conns.filter (fun c => !sendFails c), conns, false)

/-- `VoiceBridge._broadcast_bytes` (same structure as `_broadcast_text`). -/
def broadcast_bytes (conns : List Nat) (sendFails : Nat → Bool) :
    List Nat × List Nat × Bool :=
  if conns = [] then ([], conns, false)
  else (conns.filter (fun c => !sendFails c), conns, false)

/-! ## Epoch restart (`bridge.py`, `VoiceBridge._handle_start`) -/

/-- The primitive steps `VoiceBridge._handle_start` can take, in order. -/
inductive StartAction where
  | callStartTalking
  | cancelPrior
  | awaitPrior
  | createConsumer
  | sendErrorEv
deriving Repr, DecidableEq

/-- `VoiceBridge._handle_start` as the ordered trace of its primitive
steps, as a function of whether `_response_task` is already set and of
whether `strategy.on_start_talking()` raises. -/
def handle_start (hasPrior startRaises : Bool) : List StartAction :=
  if startRaises then [.callStartTalking, .sendErrorEv]
  else
    .callStartTalking ::
      ((if hasPrior then [.cancelPrior] else []) ++ [.createConsumer])

/-! ## Inbound client frames (`bridge.py`, `VoiceBridge._process_message`) -/

/-- Calls `_process_message` can make on the strategy. -/
inductive StrategyCall where
  | startGesture
  | stopGesture
deriving Repr, DecidableEq

/-- The observable outcome of `_process_message` on one text frame. -/
structure MsgOutcome where
  calls : List StrategyCall
  events : List Event
  raised : Bool
deriving Repr, DecidableEq

/-- The result of `json.loads` on a frame: a JSON object (with the value
of its `"type"` key when that value is a string; a non-string or missing
`"type"` value behaves identically to `none` under the `==` comparisons),
or any non-object JSON value (array, string, number, boolean, null). -/
inductive PyJson where
  | jobj (typeField : Option String)
  | jnonObj
deriving Repr, DecidableEq

/-- An inbound text frame, abstracted by its parse outcome: `malformed`
when `json.loads` raises `JSONDecodeError`. -/
inductive InboundText where
  | malformed
  | parsed (v : PyJson)
deriving Repr, DecidableEq

/-- `VoiceBridge._process_message`.  `json.JSONDecodeError` is caught; an
object dispatches on its `"type"`; but on a non-object value
`data.get(...)` raises `AttributeError`, which is not caught and
propagates to `handle_connection` (where it terminates that client's
receive loop). -/
def process_message : InboundText → MsgOutcome
  | .malformed => ⟨[], [], false⟩
  | .parsed (.jobj tf) =>
    if tf = some ("start_talking") then ⟨[.startGesture], [], false⟩
    else if tf = some ("stop_talking") then ⟨[.stopGesture], [], false⟩
    else ⟨[], [], false⟩
  | .parsed .jnonObj => ⟨[], [], true⟩

/-! ## AlwaysOn reconnection monitor (`strategies/always_on.py`) -/

/-- Poll interval of `AlwaysOnStrategy._reconnect_monitor` (seconds). -/
def pollIntervalSecs : Nat := 1

/-- Backoff after a failed reconnect attempt (seconds). -/
def backoffSecs : Nat := 5

/-- Observable actions of the reconnection monitor. -/
inductive MonAct where
  | sleep (secs : Nat)
  | attemptReconnect (fails : Bool)
deriving Repr, DecidableEq

/-- One iteration of the `while self._should_run` loop of
`_reconnect_monitor`, as a function of the environment it observes:
whether `is_connected` holds at the check, and whether a `_connect`
attempt would fail. -/
def monitorIter (env : Bool × Bool) : List MonAct :=
  .sleep pollIntervalSecs ::
    (if env.1 then []
     else .attemptReconnect env.2 :: (if env.2 then [.sleep backoffSecs] else []))

/-- The action trace of finitely many monitor iterations. -/
def monitorTrace : List (Bool × Bool) → List MonAct
  | [] => []
  | e :: rest => monitorIter e ++ monitorTrace rest

/-- Pair every reconnect attempt in a trace with the total seconds slept
since the previous attempt (or since the start of the trace). -/
def gapsAux (acc : Nat) : List MonAct → List (Nat × Bool)
  | [] => []
  | .sleep n :: rest => gapsAux (acc + n) rest
  | .attemptReconnect f :: rest => (acc, f) :: gapsAux 0 rest

/-- The attempts of a monitor trace, each with its preceding sleep-gap
and whether it failed. -/
def attemptGaps (tr : List MonAct) : List (Nat × Bool) :=
  gapsAux 0 tr

/-! ## Auxiliary definitions used by the statements -/

/-- Build an upstream message from an explicit parts list and
turn-complete flag. -/
def msgOfParts (parts : List Part) (tc : Bool) : UpstreamMsg :=
  ⟨some ⟨some parts, tc⟩⟩

/-- Whether an event is an `Audio` event. -/
def isAudioEv : Event → Bool
  | .audio _ => true
  | _ => false

/-- Whether an event is a `Subtitle` event. -/
def isSubtitleEv : Event → Bool
  | .subtitle _ => true
  | _ => false

/-! ## Helper lemmas -/

theorem extractTextLoop_ne_empty (l : List Part) :
    ∀ t : String, extractTextLoop l = some t → t ≠ "" := by
  induction l with
  | nil => intro t h; simp [extractTextLoop] at h
  | cons p rest ih =>
    obtain ⟨pt, pin⟩ := p
    intro t h
    cases pt with
    | none =>
      simp only [extractTextLoop] at h
      exact ih t h
    | some s =>
      by_cases hs : s = ""
      · simp only [extractTextLoop, hs, if_pos] at h
        exact ih t h
      · simp only [extractTextLoop, if_neg hs, Option.some.injEq] at h
        exact h ▸ hs

theorem extractAudioLoop_append (l₁ l₂ : List Part) (d : Bytes)
    (h : extractAudioLoop l₁ = some d) :
    extractAudioLoop (l₁ ++ l₂) = some d := by
  induction l₁ with
  | nil => simp [extractAudioLoop] at h
  | cons p rest ih =>
    obtain ⟨pt, pin⟩ := p
    cases pin with
    | none =>
      simp only [extractAudioLoop] at h
      simpa only [List.cons_append, extractAudioLoop] using ih h
    | some inline =>
      by_cases hm : pyInStr ("audio") inline.mimeType
      · simp only [extractAudioLoop, if_pos hm] at h
        simpa only [List.cons_append, extractAudioLoop, if_pos hm] using h
      · simp only [extractAudioLoop, if_neg hm] at h
        simpa only [List.cons_append, extractAudioLoop, if_neg hm] using ih h

theorem extractTextLoop_append (l₁ l₂ : List Part) (t : String)
    (h : extractTextLoop l₁ = some t) :
    extractTextLoop (l₁ ++ l₂) = some t := by
  induction l₁ with
  | nil => simp [extractTextLoop] at h
  | cons p rest ih =>
    obtain ⟨pt, pin⟩ := p
    cases pt with
    | none =>
      simp only [extractTextLoop] at h
      simpa only [List.cons_append, extractTextLoop] using ih h
    | some s =>
      by_cases hs : s = ""
      · simp only [extractTextLoop, if_pos hs] at h
        simpa only [List.cons_append, extractTextLoop, if_pos hs] using ih h
      · simp only [extractTextLoop, if_neg hs] at h
        simpa only [List.cons_append, extractTextLoop, if_neg hs] using h

theorem msgParts_msgOfParts (parts : List Part) (tc : Bool) :
    msgParts (msgOfParts parts tc) = parts := rfl

theorem receiveLoop_no_raise (frames : List Frame) :
    (receiveLoop frames).2 = false := by
  induction frames with
  | nil => rfl
  | cons fr rest ih => cases fr <;> simp [receiveLoop, ih]

theorem receiveLoop_yields (frames : List Frame) :
    (receiveLoop frames).1 = (frames.takeWhile isOkFrame).filterMap frameDecoded := by
  induction frames with
  | nil => rfl
  | cons fr rest ih =>
    cases fr <;> simp [receiveLoop, isOkFrame, frameDecoded, List.takeWhile, ih]

theorem lastSucceededWasStart_eq_getLastD (tr : List (ODCall × Bool)) : ∀ b : Bool,
    lastSucceededWasStart b tr =
      (((tr.filter (fun e => e.2)).map (fun e => isStartCall e.1)).getLastD b) := by
  induction tr with
  | nil => intro b; rfl
  | cons e tr ih =>
    intro b
    obtain ⟨c, s⟩ := e
    cases s with
    | false =>
      have hf : ((c, false) :: tr).filter (fun e => e.2) = tr.filter (fun e => e.2) := by
        simp [List.filter_cons]
      rw [hf]
      exact ih b
    | true =>
      have hf : ((c, true) :: tr).filter (fun e => e.2) =
          (c, true) :: tr.filter (fun e => e.2) := by
        simp [List.filter_cons]
      rw [hf, List.map_cons, List.getLastD_cons]
      exact ih (isStartCall c)

theorem runCalls_spec (calls : List ODCall) : ∀ b : Bool,
    (runCalls b calls).1 = lastSucceededWasStart b (runCalls b calls).2 := by
  induction calls with
  | nil => intro b; simp [runCalls, lastSucceededWasStart]
  | cons c rest ih =>
    intro b
    cases c with
    | stopTalking =>
      cases b <;>
        simpa [runCalls, stepCall, on_stop_talking,
          lastSucceededWasStart, isStartCall] using ih false
    | startTalking ok =>
      cases b with
      | true =>
        simpa [runCalls, stepCall, on_start_talking,
          lastSucceededWasStart, isStartCall] using ih true
      | false =>
        cases ok with
        | true =>
          simpa [runCalls, stepCall, on_start_talking,
            lastSucceededWasStart, isStartCall] using ih true
        | false =>
          simpa [runCalls, stepCall, on_start_talking,
            lastSucceededWasStart] using ih false

theorem gapsAux_head_ge (tr : List MonAct) : ∀ (acc : Nat) (p : Nat × Bool),
    (gapsAux acc tr).head? = some p → acc ≤ p.1 := by
  induction tr with
  | nil => intro acc p h; simp [gapsAux] at h
  | cons a rest ih =>
    intro acc p h
    cases a with
    | sleep n =>
      rw [show gapsAux acc (.sleep n :: rest) = gapsAux (acc + n) rest from rfl] at h
      exact le_trans (Nat.le_add_right acc n) (ih (acc + n) p h)
    | attemptReconnect f =>
      simp [gapsAux] at h
      subst h
      simp

theorem monitor_chain (envs : List (Bool × Bool)) : ∀ acc : Nat,
    List.Chain' (fun a b => a.2 = true → backoffSecs ≤ b.1)
      (gapsAux acc (monitorTrace envs)) := by
  induction envs with
  | nil => intro acc; simp [monitorTrace, gapsAux]
  | cons e rest ih =>
    intro acc
    obtain ⟨c, f⟩ := e
    cases c with
    | true =>
      simpa [monitorTrace, monitorIter, gapsAux] using ih (acc + pollIntervalSecs)
    | false =>
      cases f with
      | false =>
        have h1 : gapsAux acc (monitorTrace ((false, false) :: rest)) =
            (acc + pollIntervalSecs, false) :: gapsAux 0 (monitorTrace rest) := by
          simp [monitorTrace, monitorIter, gapsAux]
        rw [h1, List.chain'_cons']
        constructor
        · intro p _ hcontra
          exact absurd hcontra (by simp)
        · exact ih 0
      | true =>
        have h1 : gapsAux acc (monitorTrace ((false, true) :: rest)) =
            (acc + pollIntervalSecs, true) ::
              gapsAux backoffSecs (monitorTrace rest) := by
          simp [monitorTrace, monitorIter, gapsAux]
        rw [h1, List.chain'_cons']
        constructor
        · intro p hp _
          exact gapsAux_head_ge (monitorTrace rest) backoffSecs p (Option.mem_def.mp hp)
        · exact ih backoffSecs

theorem monitor_attempt_count (envs : List (Bool × Bool)) : ∀ acc : Nat,
    (gapsAux acc (monitorTrace envs)).length =
      (envs.filter (fun e => !e.1)).length := by
  induction envs with
  | nil => intro acc; simp [monitorTrace, gapsAux]
  | cons e rest ih =>
    intro acc
    obtain ⟨c, f⟩ := e
    cases c <;> cases f <;>
      simp [monitorTrace, monitorIter, gapsAux, List.filter, ih]

/-! ## Claim theorems -/

/-- Claim C1: for every upstream message in which an audio part (with
non-empty data), a text part, and the turn-complete flag are all present,
`_process_responses` emits exactly the sequence Speaking(true),
Audio(bytes), Subtitle(text), Speaking(false), TurnComplete, in that
order, and nothing else for that message. -/
theorem C1_classification_order (msg : UpstreamMsg) (d : Bytes) (t : String)
    (hd : extract_audio msg = some d) (hdne : d ≠ [])
    (ht : extract_text msg = some t)
    (htc : is_turn_complete msg = true) :
    processResponseMsg msg =
      [.speaking true, .audio d, .subtitle t, .speaking false, .turnCompleteEv] := by
  have htne : t ≠ "" := extractTextLoop_ne_empty (msgParts msg) t ht
  rw [processResponseMsg, hd, ht, htc]
  simp [hdne, htne]

/-- Witness for C1 at a concrete message with all three components. -/
theorem C1_classification_order_witness :
    processResponseMsg sampleMsg =
      [.speaking true, .audio [1, 2], .subtitle ("hi"), .speaking false, .turnCompleteEv] :=
  C1_classification_order sampleMsg [1, 2] ("hi") (by decide) (by decide) (by decide)
    (by decide)

/-- Claim C2: over every finite sequence of start/stop-talking calls, the
OnDemand strategy is Active iff the most recent call that succeeded was
`on_start_talking` with no `on_stop_talking` after it; `on_start_talking`
while Active and `on_stop_talking` while Idle are non-raising no-ops; and
a failing `connect` during `on_start_talking` leaves the strategy Idle
and propagates the exception. -/
theorem C2_on_demand_activity (calls : List ODCall) (ok : Bool) :
    ((runCalls false calls).1 = lastSucceededWasStart false (runCalls false calls).2)
    ∧ on_start_talking true ok = (true, false)
    ∧ on_stop_talking false = (false, false)
    ∧ on_start_talking false false = (false, true) :=
  ⟨runCalls_spec calls false, rfl, rfl, rfl⟩

/-- A history buffer built by 21 consecutive `add_to_history` calls. -/
def manyAdds : List HistoryEntry :=
  (List.replicate 21 0).foldl (fun h _ => add_to_history h ("user") ("hi")) []

/-- Claim C3 is false on the code: after 21 `add_to_history` operations
the buffer holds 21 entries, exceeding `max_history_messages = 20` (no
eviction ever happens on the buffer itself). -/
theorem C3_counterexample :
    manyAdds.length = 21 ∧ max_history_messages < manyAdds.length := by decide

/-- Claim C3 (amended): history operations only ever append (insertion
order, no eviction), so the buffer itself is unbounded; the cap is
applied when the context prompt is rebuilt, whose `recent` slice has at
most `max_history_messages` entries and is a suffix of the buffer (the
oldest entries are the ones dropped). -/
theorem C3_history_cap_amended (h : List HistoryEntry) (role text : String)
    (msg : UpstreamMsg) :
    (add_to_history h role text = h ++ [⟨role, text⟩] ∨ add_to_history h role text = h)
    ∧ (receiveStep h msg = h ∨
        ∃ t, extract_text msg = some t ∧ receiveStep h msg = h ++ [⟨("assistant"), t⟩])
    ∧ (recentHistory h).length ≤ max_history_messages
    ∧ h.take (h.length - max_history_messages) ++ recentHistory h = h := by
  have hr : recentHistory h = h.drop (h.length - max_history_messages) := by
    simp [recentHistory, pyLastSlice, max_history_messages]
  refine ⟨?_, ?_, ?_, ?_⟩
  · by_cases hs : strippedTruthy text
    · left; simp [add_to_history, hs]
    · right; simp [add_to_history, hs]
  · cases hm : extract_text msg with
    | none => left; simp [receiveStep, hm]
    | some t => right; exact ⟨t, rfl, by simp [receiveStep, hm]⟩
  · rw [hr]
    simp [List.length_drop, max_history_messages]
    omega
  · rw [hr]
    exact List.take_append_drop _ h

/-- Claim C4 is false on the code: with a prior response task present and
a successful start gesture, `_handle_start` creates the new consumer task
without ever awaiting the cancelled prior task. -/
theorem C4_counterexample :
    .createConsumer ∈ handle_start true false
    ∧ .awaitPrior ∉ handle_start true false := by decide

/-- Claim C4 (amended): when a start gesture succeeds and a prior
consumption task exists, `_handle_start` requests cancellation of the
prior task before creating the new consumer, but never awaits it; the
prior consumer may still run until its next suspension point. -/
theorem C4_cancel_before_create_amended :
    handle_start true false = [.callStartTalking, .cancelPrior, .createConsumer]
    ∧ (∀ hasPrior startRaises : Bool, .awaitPrior ∉ handle_start hasPrior startRaises) := by
  constructor
  · decide
  · decide

/-- Claim C5 is false on the code: a decoding failure of one frame ends
the whole generator, so a later well-formed frame is never yielded, while
the claimed skip-and-continue behaviour would yield it. -/
theorem C5_counterexample :
    (receive_messages true [.badDecode, .ok sampleMsg]).1 = []
    ∧ receiveClaimedLoop [.badDecode, .ok sampleMsg] = [sampleMsg]
    ∧ (receive_messages true [.badDecode, .ok sampleMsg]).1 ≠
        receiveClaimedLoop [.badDecode, .ok sampleMsg] := by decide

/-- Claim C5 (amended): `receive_messages` never raises to its consumer
(normal or abnormal closure included), and it yields exactly the decoded
frames preceding the first failure — a decoding failure ends the
sequence instead of skipping only that frame. -/
theorem C5_receive_amended (sessionExists : Bool) (frames : List Frame) :
    (receive_messages sessionExists frames).2 = false
    ∧ (receive_messages true frames).1 =
        (frames.takeWhile isOkFrame).filterMap frameDecoded := by
  constructor
  · cases sessionExists <;> simp [receive_messages, receiveLoop_no_raise]
  · simpa [receive_messages] using receiveLoop_yields frames

/-- Claim C6: `send_audio` never raises to its caller; when not connected
it is a no-op leaving the client state unchanged; and when the underlying
send fails it makes `is_connected` false instead of propagating. -/
theorem C6_send_audio_no_raise (s : ClientState) (sendFails : Bool) :
    (send_audio s sendFails).2 = false
    ∧ (is_connected s = false → send_audio s sendFails = (s, false))
    ∧ (is_connected s = true → sendFails = true →
        is_connected (send_audio s sendFails).1 = false) := by
  obtain ⟨ic, se⟩ := s
  cases ic <;> cases se <;> cases sendFails <;> simp [send_audio, is_connected]

/-- Witness for C6 on a connected client whose send fails. -/
theorem C6_send_audio_no_raise_witness :
    (send_audio ⟨true, true⟩ true).2 = false
    ∧ is_connected (send_audio ⟨true, true⟩ true).1 = false :=
  ⟨(C6_send_audio_no_raise ⟨true, true⟩ true).1,
    (C6_send_audio_no_raise ⟨true, true⟩ true).2.2 rfl rfl⟩

/-- Claim C7 is false on the code: with listeners 1, 2, 3 where listener
2 fails on send, the broadcast still reaches 1 and 3 and does not raise,
but listener 2 is NOT removed from the connection set. -/
theorem C7_counterexample :
    (broadcast_text [1, 2, 3] (fun c => c == 2)).1 = [1, 3]
    ∧ (broadcast_text [1, 2, 3] (fun c => c == 2)).2.2 = false
    ∧ 2 ∈ (broadcast_text [1, 2, 3] (fun c => c == 2)).2.1 := by decide

/-- Claim C7 (amended): a failed send to one listener prevents neither
delivery to the other listeners nor the caller from returning normally,
but the failing listener stays in the connection set — broadcasts never
remove listeners (removal happens only when a listener's own receive
loop ends). -/
theorem C7_fanout_amended (conns : List Nat) (sendFails : Nat → Bool) :
    (broadcast_text conns sendFails).1 = conns.filter (fun c => !sendFails c)
    ∧ (broadcast_text conns sendFails).2.1 = conns
    ∧ (broadcast_text conns sendFails).2.2 = false
    ∧ (broadcast_bytes conns sendFails).1 = conns.filter (fun c => !sendFails c)
    ∧ (broadcast_bytes conns sendFails).2.1 = conns
    ∧ (broadcast_bytes conns sendFails).2.2 = false := by
  by_cases hc : conns = [] <;> simp [broadcast_text, broadcast_bytes, hc]

/-- Claim C8: in the AlwaysOn reconnection monitor, every reconnect
attempt that follows a failed attempt is separated from it by at least
`backoffSecs` of sleeping, and the number of attempts equals the number
of poll iterations that observed a disconnected client — so no attempt
ever occurs while `is_connected` is true. -/
theorem C8_monitor_backoff (envs : List (Bool × Bool)) :
    List.Chain' (fun a b => a.2 = true → backoffSecs ≤ b.1)
      (attemptGaps (monitorTrace envs))
    ∧ (attemptGaps (monitorTrace envs)).length =
        (envs.filter (fun e => !e.1)).length :=
  ⟨monitor_chain envs 0, monitor_attempt_count envs 0⟩

/-- Witness for C8 on a run with one failed and one later attempt. -/
theorem C8_monitor_backoff_witness :
    List.Chain' (fun a b => a.2 = true → backoffSecs ≤ b.1)
      (attemptGaps (monitorTrace [(false, true), (false, false)]))
    ∧ (attemptGaps (monitorTrace [(false, true), (false, false)])).length =
        ([(false, true), (false, false)].filter (fun e => !e.1)).length :=
  C8_monitor_backoff [(false, true), (false, false)]

/-- Claim C9: when a model turn contains further text or audio parts
after the first ones, only the first text and first audio part are
extracted, the relay emits at most one Subtitle and at most one Audio
event for the message, and the OnDemand history records only the first
text part. -/
theorem C9_first_part_only (l₁ l₂ : List Part) (tc : Bool) (d : Bytes) (t : String)
    (h : List HistoryEntry)
    (hd : extractAudioLoop l₁ = some d) (ht : extractTextLoop l₁ = some t) :
    extract_audio (msgOfParts (l₁ ++ l₂) tc) = some d
    ∧ extract_text (msgOfParts (l₁ ++ l₂) tc) = some t
    ∧ (processResponseMsg (msgOfParts (l₁ ++ l₂) tc)).countP (fun e => isAudioEv e) ≤ 1
    ∧ (processResponseMsg (msgOfParts (l₁ ++ l₂) tc)).countP (fun e => isSubtitleEv e) ≤ 1
    ∧ receiveStep h (msgOfParts (l₁ ++ l₂) tc) = h ++ [⟨("assistant"), t⟩] := by
  have hA : extract_audio (msgOfParts (l₁ ++ l₂) tc) = some d :=
    extractAudioLoop_append l₁ l₂ d hd
  have hT : extract_text (msgOfParts (l₁ ++ l₂) tc) = some t :=
    extractTextLoop_append l₁ l₂ t ht
  have htne : t ≠ "" := extractTextLoop_ne_empty (l₁ ++ l₂) t hT
  refine ⟨hA, hT, ?_, ?_, ?_⟩
  · rw [processResponseMsg, hA, hT]
    by_cases hd0 : d = [] <;>
      by_cases htc0 : is_turn_complete (msgOfParts (l₁ ++ l₂) tc) <;>
        simp [hd0, htne, htc0, List.countP_append, List.countP_cons,
          isAudioEv, isSubtitleEv]
  · rw [processResponseMsg, hA, hT]
    by_cases hd0 : d = [] <;>
      by_cases htc0 : is_turn_complete (msgOfParts (l₁ ++ l₂) tc) <;>
        simp [hd0, htne, htc0, List.countP_append, List.countP_cons,
          isAudioEv, isSubtitleEv]
  · simp [receiveStep, hT]

/-- A first parts chunk carrying one text part and one audio part. -/
def dupParts₁ : List Part :=
  [⟨some ("a"), none⟩, ⟨none, some ⟨("audio/pcm"), some [7]⟩⟩]

/-- A second parts chunk with one further text part and one further
audio part. -/
def dupParts₂ : List Part :=
  [⟨some ("b"), none⟩, ⟨none, some ⟨("audio/pcm"), some [8]⟩⟩]

/-- Witness for C9 on a message with two text and two audio parts. -/
theorem C9_first_part_only_witness :
    extract_audio (msgOfParts (dupParts₁ ++ dupParts₂) true) = some [7]
    ∧ extract_text (msgOfParts (dupParts₁ ++ dupParts₂) true) = some ("a")
    ∧ (processResponseMsg (msgOfParts (dupParts₁ ++ dupParts₂) true)).countP
        (fun e => isAudioEv e) ≤ 1
    ∧ (processResponseMsg (msgOfParts (dupParts₁ ++ dupParts₂) true)).countP
        (fun e => isSubtitleEv e) ≤ 1
    ∧ receiveStep [] (msgOfParts (dupParts₁ ++ dupParts₂) true) =
        [] ++ [⟨("assistant"), ("a")⟩] :=
  C9_first_part_only dupParts₁ dupParts₂ true [7] ("a") [] (by decide) (by decide)

/-- Claim C10 is false on the code: a frame that parses to a non-object
JSON value (array, string, number, boolean, null) has no `type` field,
yet `_process_message` raises (`data.get` raises `AttributeError`)
instead of leaving everything unchanged; the propagated exception makes
`handle_connection` drop that client. -/
theorem C10_counterexample :
    (process_message (.parsed .jnonObj)).raised = true
    ∧ process_message (.parsed .jnonObj) ≠ ⟨[], [], false⟩ := by decide

/-- Claim C10 (amended): for a frame that is not valid JSON, or that
parses to a JSON object whose `type` is neither `start_talking` nor
`stop_talking` (including a missing `type`), the bridge makes no strategy
call, emits no event and raises nothing; a valid-JSON non-object frame
instead raises `AttributeError` out of `_process_message`. -/
theorem C10_dispatch_amended (tf : Option String)
    (h1 : tf ≠ some ("start_talking")) (h2 : tf ≠ some ("stop_talking")) :
    process_message .malformed = ⟨[], [], false⟩
    ∧ process_message (.parsed (.jobj tf)) = ⟨[], [], false⟩
    ∧ process_message (.parsed .jnonObj) = ⟨[], [], true⟩ := by
  refine ⟨rfl, ?_, rfl⟩
  simp [process_message, h1, h2]

/-- Witness for C10 (amended) at the unknown type `ping`. -/
theorem C10_dispatch_amended_witness :
    process_message .malformed = ⟨[], [], false⟩
    ∧ process_message (.parsed (.jobj (some ("ping")))) = ⟨[], [], false⟩
    ∧ process_message (.parsed .jnonObj) = ⟨[], [], true⟩ :=
  C10_dispatch_amended (some ("ping")) (by decide) (by decide)

end AiVoiceBridge
